import Mathlib

/-!
Shallow embedding of the transaction-status / shared-lock bookkeeping layer
(`libs/postgres_ffi/src/nonrelfile_utils.rs` together with the constants of
`libs/postgres_ffi/src/pg_constants.rs`) and proofs of the specified
properties.

Modelling conventions:
* Rust machine integers (`u8`, `u16`, `u32`, `u64`, `usize`) are embedded as
  `Nat`, with an explicit `% 2^w` wherever the source's fixed width can
  actually truncate or wrap a value (casts such as `xid as u16`, and `u32`
  arithmetic that can exceed `u32::MAX`).
* A mutable page buffer (`BytesMut` / `&[u8]`) is a `List Nat` of byte
  values; a byte is a `Nat < 256`.
* Operations that can panic in the source (out-of-bounds slice indexing,
  the `assert_eq!` alignment check) return `Option`: `none` is the panic.
* `i32` results are embedded as `Int` through the value-preserving
  reinterpretation `i32_of_u32`.
-/

/-- Modelled from the spec: the engine block size constant `BLCKSZ` is
declared outside the excerpt (`use crate::BLCKSZ`); §6 fixes the reference
value, 8192 bytes. -/
def BLCKSZ : Nat := 8192

namespace pg_constants

def CLOG_XACTS_PER_BYTE : Nat := 4

def CLOG_XACTS_PER_PAGE : Nat := BLCKSZ * CLOG_XACTS_PER_BYTE

def CLOG_BITS_PER_XACT : Nat := 2

def CLOG_XACT_BITMASK : Nat := (1 <<< CLOG_BITS_PER_XACT) - 1

def SLRU_PAGES_PER_SEGMENT : Nat := 32

def FIRST_NORMAL_TRANSACTION_ID : Nat := 3

def MXACT_MEMBER_BITS_PER_XACT : Nat := 8

def MXACT_MEMBER_FLAGS_PER_BYTE : Nat := 1

def MULTIXACT_FLAGBYTES_PER_GROUP : Nat := 4

def MULTIXACT_MEMBERS_PER_MEMBERGROUP : Nat :=
  MULTIXACT_FLAGBYTES_PER_GROUP * MXACT_MEMBER_FLAGS_PER_BYTE

def MULTIXACT_MEMBERGROUP_SIZE : Nat :=
  4 * MULTIXACT_MEMBERS_PER_MEMBERGROUP + MULTIXACT_FLAGBYTES_PER_GROUP

def MULTIXACT_MEMBERGROUPS_PER_PAGE : Nat := BLCKSZ / MULTIXACT_MEMBERGROUP_SIZE

def MULTIXACT_MEMBERS_PER_PAGE : Nat :=
  MULTIXACT_MEMBERGROUPS_PER_PAGE * MULTIXACT_MEMBERS_PER_MEMBERGROUP

/-- Modelled from the spec: `MAX_REGIONS` (the region count) is declared
outside the excerpt.  Its value, 64, is pinned by the literal MultiXact
addressing scenarios of §8: `member_page_number(123456789, 0) = 4829568`
together with `members_per_page = 1636` forces
`region_count = 4829568 / (123456789 / 1636) = 64`. -/
def MAX_REGIONS : Nat := 64

/-- Modelled from the spec: `CSN_LOG_XACTS_PER_PAGE` is declared outside the
excerpt; §4.3 and §6 fix it as `block_size / 8` entries per CSN page. -/
def CSN_LOG_XACTS_PER_PAGE : Nat := BLCKSZ / 8

/-- Modelled from the spec: `CSN_SIZE` is declared outside the excerpt;
§4.3 and §6 fix each CSN entry at 8 bytes. -/
def CSN_SIZE : Nat := 8

end pg_constants

/-- Modelled from the spec: `transaction_id_precedes` (§4.1 Identifier
Ordering) is imported from outside the excerpt (`use
crate::transaction_id_precedes`).  §4.1: compute `diff = a - b` using 32-bit
wraparound subtraction, reinterpret the bit pattern as a signed 32-bit
integer, and return `diff < 0` — i.e. the wrapped difference is at least
`2^31`. -/
def transaction_id_precedes (a b : Nat) : Bool :=
  decide (2147483648 ≤ (a % 4294967296 + 4294967296 - b % 4294967296) % 4294967296)

/-- Byte index of `xid`'s CLOG entry inside its page, exactly the `byteno`
expression of `transaction_id_set_status` / `transaction_id_get_status`. -/
def CLOG_byteno (xid : Nat) : Nat :=
  xid % pg_constants.CLOG_XACTS_PER_PAGE / pg_constants.CLOG_XACTS_PER_BYTE

/-- Bit shift of `xid`'s CLOG entry inside its byte, exactly the `bshift`
expression of `transaction_id_set_status` / `transaction_id_get_status`. -/
def CLOG_bshift (xid : Nat) : Nat :=
  xid % pg_constants.CLOG_XACTS_PER_BYTE * pg_constants.CLOG_BITS_PER_XACT

/-- `transaction_id_set_status(xid, status, page)`: replace the 2-bit field
of `xid` inside `page[byteno]`.  The source's u8 expression
`page[byteno] & !(CLOG_XACT_BITMASK << bshift) | (status << bshift)` is
embedded with u8 complement `255 ^^^ ·` and explicit `% 256` truncation of
the u8 shifts; the panicking index is `none`. -/
def transaction_id_set_status (xid status : Nat) (page : List Nat) : Option (List Nat) :=
  (page[CLOG_byteno xid]?).map fun old =>
    page.set (CLOG_byteno xid)
      ((old &&& (255 ^^^ (pg_constants.CLOG_XACT_BITMASK <<< CLOG_bshift xid) % 256)) |||
        (status <<< CLOG_bshift xid) % 256)

/-- `transaction_id_get_status(xid, page)`:
`(page[byteno] >> bshift) & CLOG_XACT_BITMASK`. -/
def transaction_id_get_status (xid : Nat) (page : List Nat) : Option Nat :=
  (page[CLOG_byteno xid]?).map fun b =>
    b >>> CLOG_bshift xid &&& pg_constants.CLOG_XACT_BITMASK

/-- First byte of `xid`'s CSN entry inside its page, exactly the
`bytebegin = entryno * CSN_SIZE` expression of `transaction_id_set_csn`. -/
def CSN_bytebegin (xid : Nat) : Nat :=
  xid % pg_constants.CSN_LOG_XACTS_PER_PAGE * pg_constants.CSN_SIZE

/-- `transaction_id_set_csn(xid, csn, page)`: write the 8 bytes of `csn`
little-endian at `page[bytebegin..bytebegin+8]`
(`LittleEndian::write_u64`), byte `i` being `(csn >> 8*i) & 0xff`.  The
panicking out-of-bounds slice is `none`. -/
def transaction_id_set_csn (xid csn : Nat) (page : List Nat) : Option (List Nat) :=
  if CSN_bytebegin xid + pg_constants.CSN_SIZE ≤ page.length then
    some ((((((((page.set
      (CSN_bytebegin xid) (csn % 256)).set
      (CSN_bytebegin xid + 1) (csn >>> 8 % 256)).set
      (CSN_bytebegin xid + 2) (csn >>> 16 % 256)).set
      (CSN_bytebegin xid + 3) (csn >>> 24 % 256)).set
      (CSN_bytebegin xid + 4) (csn >>> 32 % 256)).set
      (CSN_bytebegin xid + 5) (csn >>> 40 % 256)).set
      (CSN_bytebegin xid + 6) (csn >>> 48 % 256)).set
      (CSN_bytebegin xid + 7) (csn >>> 56 % 256))
  else none

/-- `clogpage_precedes(page1, page2)` (see `CLOGPagePrecedes` in clog.c):
compare the first normal xids of the two pages, in both directions across
the second page's span.  The u32 products and sums wrap mod `2^32`. -/
def clogpage_precedes (page1 page2 : Nat) : Bool :=
  let xid1 := (page1 * pg_constants.CLOG_XACTS_PER_PAGE +
    pg_constants.FIRST_NORMAL_TRANSACTION_ID + 1) % 4294967296
  let xid2 := (page2 * pg_constants.CLOG_XACTS_PER_PAGE +
    pg_constants.FIRST_NORMAL_TRANSACTION_ID + 1) % 4294967296
  transaction_id_precedes xid1 xid2 &&
    transaction_id_precedes xid1
      ((xid2 + pg_constants.CLOG_XACTS_PER_PAGE - 1) % 4294967296)

/-- `slru_may_delete_segment(segpage, cutoff_page)` (see
`SlruMayDeleteSegment()` in slru.c): both the first and the last page of the
segment must precede the cutoff.  The source's
`assert_eq!(segpage % SLRU_PAGES_PER_SEGMENT, 0)` panic is `none`. -/
def slru_may_delete_segment (segpage cutoff_page : Nat) : Option Bool :=
  let seg_last_page := (segpage + pg_constants.SLRU_PAGES_PER_SEGMENT - 1) % 4294967296
  if segpage % pg_constants.SLRU_PAGES_PER_SEGMENT = 0 then
    some (clogpage_precedes segpage cutoff_page &&
      clogpage_precedes seg_last_page cutoff_page)
  else none

/-- `mx_offset_to_flags_offset(xid)`:
`(xid / MULTIXACT_MEMBERS_PER_MEMBERGROUP) % MULTIXACT_MEMBERGROUPS_PER_PAGE
* MULTIXACT_MEMBERGROUP_SIZE` (all intermediate u32 values are at most
8160, so no truncation arises). -/
def mx_offset_to_flags_offset (xid : Nat) : Nat :=
  xid / pg_constants.MULTIXACT_MEMBERS_PER_MEMBERGROUP %
    pg_constants.MULTIXACT_MEMBERGROUPS_PER_PAGE *
    pg_constants.MULTIXACT_MEMBERGROUP_SIZE

/-- `mx_offset_to_flags_bitshift(xid)`:
`(xid as u16) % MULTIXACT_MEMBERS_PER_MEMBERGROUP *
MXACT_MEMBER_BITS_PER_XACT`; the `as u16` cast truncates to `% 2^16`. -/
def mx_offset_to_flags_bitshift (xid : Nat) : Nat :=
  xid % 65536 % pg_constants.MULTIXACT_MEMBERS_PER_MEMBERGROUP *
    pg_constants.MXACT_MEMBER_BITS_PER_XACT

/-- `mx_offset_to_member_offset(xid)`: flags offset plus
`MULTIXACT_FLAGBYTES_PER_GROUP + (xid as u16 % MULTIXACT_MEMBERS_PER_MEMBERGROUP) * 4`. -/
def mx_offset_to_member_offset (xid : Nat) : Nat :=
  mx_offset_to_flags_offset xid +
    (pg_constants.MULTIXACT_FLAGBYTES_PER_GROUP +
      xid % 65536 % pg_constants.MULTIXACT_MEMBERS_PER_MEMBERGROUP * 4)

/-- `mx_offset_to_member_page(xid, region)`:
`(xid / MULTIXACT_MEMBERS_PER_PAGE) * MAX_REGIONS + region`, as u32
arithmetic (wraps mod `2^32`). -/
def mx_offset_to_member_page (xid region : Nat) : Nat :=
  (xid / pg_constants.MULTIXACT_MEMBERS_PER_PAGE * pg_constants.MAX_REGIONS +
    region) % 4294967296

/-- Reinterpretation of a u32 value as an `i32` (`as i32` cast). -/
def i32_of_u32 (v : Nat) : Int :=
  if v < 2147483648 then (v : Int) else (v : Int) - 4294967296

/-- `mx_offset_to_member_segment(xid, region)`:
`(mx_offset_to_member_page(xid, region) / SLRU_PAGES_PER_SEGMENT) as i32`. -/
def mx_offset_to_member_segment (xid region : Nat) : Int :=
  i32_of_u32 (mx_offset_to_member_page xid region / pg_constants.SLRU_PAGES_PER_SEGMENT)

/-- `csnlogpage_precedes(page1, page2)` (see `CSNLogPagePrecedes` in
csn_log.c): pages of different regions never precede one another; within a
region, compare the region-adjusted first normal xids one-directionally.
The u32 products and sums wrap mod `2^32`. -/
def csnlogpage_precedes (page1 page2 : Nat) : Bool :=
  if page1 % pg_constants.MAX_REGIONS ≠ page2 % pg_constants.MAX_REGIONS then
    false
  else
    let xid1 := (page1 / pg_constants.MAX_REGIONS *
      pg_constants.CSN_LOG_XACTS_PER_PAGE +
      pg_constants.FIRST_NORMAL_TRANSACTION_ID + 1) % 4294967296
    let xid2 := (page2 / pg_constants.MAX_REGIONS *
      pg_constants.CSN_LOG_XACTS_PER_PAGE +
      pg_constants.FIRST_NORMAL_TRANSACTION_ID + 1) % 4294967296
    transaction_id_precedes xid1 xid2

/-- The retention predicate `page_precedes` exactly as the spec words it
(§4.4): map each page number to the identifier of its first entry,
`p * entries_per_page + first_normal_id + 1`, and defer to `precedes`
checked in both directions across the second page's span.  Stated without
wrapping, to be compared with the source's `clogpage_precedes`. -/
def spec_page_precedes (p1 p2 : Nat) : Bool :=
  transaction_id_precedes
      (p1 * pg_constants.CLOG_XACTS_PER_PAGE + pg_constants.FIRST_NORMAL_TRANSACTION_ID + 1)
      (p2 * pg_constants.CLOG_XACTS_PER_PAGE + pg_constants.FIRST_NORMAL_TRANSACTION_ID + 1) &&
    transaction_id_precedes
      (p1 * pg_constants.CLOG_XACTS_PER_PAGE + pg_constants.FIRST_NORMAL_TRANSACTION_ID + 1)
      (p2 * pg_constants.CLOG_XACTS_PER_PAGE + pg_constants.FIRST_NORMAL_TRANSACTION_ID + 1 +
        pg_constants.CLOG_XACTS_PER_PAGE - 1)

/-! ### Constant values -/

theorem BLCKSZ_val : BLCKSZ = 8192 := rfl

theorem CLOG_XACTS_PER_BYTE_val : pg_constants.CLOG_XACTS_PER_BYTE = 4 := rfl

theorem CLOG_XACTS_PER_PAGE_val : pg_constants.CLOG_XACTS_PER_PAGE = 32768 := rfl

theorem CLOG_BITS_PER_XACT_val : pg_constants.CLOG_BITS_PER_XACT = 2 := rfl

theorem CLOG_XACT_BITMASK_val : pg_constants.CLOG_XACT_BITMASK = 3 := rfl

theorem SLRU_PAGES_PER_SEGMENT_val : pg_constants.SLRU_PAGES_PER_SEGMENT = 32 := rfl

theorem FIRST_NORMAL_TRANSACTION_ID_val : pg_constants.FIRST_NORMAL_TRANSACTION_ID = 3 := rfl

theorem MXACT_MEMBER_BITS_PER_XACT_val : pg_constants.MXACT_MEMBER_BITS_PER_XACT = 8 := rfl

theorem MULTIXACT_FLAGBYTES_PER_GROUP_val : pg_constants.MULTIXACT_FLAGBYTES_PER_GROUP = 4 := rfl

theorem MULTIXACT_MEMBERS_PER_MEMBERGROUP_val :
    pg_constants.MULTIXACT_MEMBERS_PER_MEMBERGROUP = 4 := rfl

theorem MULTIXACT_MEMBERGROUP_SIZE_val : pg_constants.MULTIXACT_MEMBERGROUP_SIZE = 20 := rfl

theorem MULTIXACT_MEMBERGROUPS_PER_PAGE_val :
    pg_constants.MULTIXACT_MEMBERGROUPS_PER_PAGE = 409 := rfl

theorem MULTIXACT_MEMBERS_PER_PAGE_val : pg_constants.MULTIXACT_MEMBERS_PER_PAGE = 1636 := rfl

theorem MAX_REGIONS_val : pg_constants.MAX_REGIONS = 64 := rfl

theorem CSN_LOG_XACTS_PER_PAGE_val : pg_constants.CSN_LOG_XACTS_PER_PAGE = 1024 := rfl

theorem CSN_SIZE_val : pg_constants.CSN_SIZE = 8 := rfl

/-! ### Identifier ordering -/

theorem transaction_id_precedes_mod_left (a b : Nat) :
    transaction_id_precedes (a % 4294967296) b = transaction_id_precedes a b := by
  simp only [transaction_id_precedes]
  rw [decide_eq_decide]
  omega

theorem transaction_id_precedes_mod_right (a b : Nat) :
    transaction_id_precedes a (b % 4294967296) = transaction_id_precedes a b := by
  simp only [transaction_id_precedes]
  rw [decide_eq_decide]
  omega

/-- C7: for 32-bit identifiers `a`, `b` whose circular distance is below
half the domain, exactly one of `precedes a b`, `precedes b a`, `a = b`
holds. -/
theorem transaction_id_precedes_trichotomy (a b : Nat)
    (ha : a < 4294967296) (hb : b < 4294967296)
    (hdist : (a + 4294967296 - b) % 4294967296 < 2147483648 ∨
      (b + 4294967296 - a) % 4294967296 < 2147483648) :
    (transaction_id_precedes a b = true ∧ transaction_id_precedes b a = false ∧ a ≠ b) ∨
      (transaction_id_precedes a b = false ∧ transaction_id_precedes b a = true ∧ a ≠ b) ∨
      (transaction_id_precedes a b = false ∧ transaction_id_precedes b a = false ∧ a = b) := by
  simp only [transaction_id_precedes, decide_eq_true_eq, decide_eq_false_iff_not, not_le, ne_eq]
  omega

/-- Witness for C7 at `a = 10`, `b = 11`. -/
theorem transaction_id_precedes_trichotomy_witness :
    (transaction_id_precedes 10 11 = true ∧ transaction_id_precedes 11 10 = false ∧
        (10 : Nat) ≠ 11) ∨
      (transaction_id_precedes 10 11 = false ∧ transaction_id_precedes 11 10 = true ∧
        (10 : Nat) ≠ 11) ∨
      (transaction_id_precedes 10 11 = false ∧ transaction_id_precedes 11 10 = false ∧
        (10 : Nat) = 11) :=
  transaction_id_precedes_trichotomy 10 11 (by norm_num) (by norm_num) (Or.inr (by decide))

/-! ### CLOG codec -/

set_option maxRecDepth 100000

set_option maxHeartbeats 2000000

/-- Field-level behaviour of the CLOG byte update, checked over the full
(finite) domain of a packed byte: reading 2-bit field `j` after writing
2-bit field `k` gives the written value when `j = k` and the old field
otherwise. -/
theorem clog_byte_fields : ∀ old < 256, ∀ s < 4, ∀ k < 4, ∀ j < 4,
    ((old &&& (255 ^^^ (3 <<< (k * 2)) % 256)) ||| (s <<< (k * 2)) % 256) >>> (j * 2) &&& 3 =
      if j = k then s else old >>> (j * 2) &&& 3 := by decide

/-- C1: CLOG round trip.  On a page of at least `BLCKSZ` bytes with
arbitrary byte content, reading `xid` right after
`transaction_id_set_status xid s` returns exactly `s`, and reading any
identifier `xid'` whose 2-bit field (byte index, bit shift) differs from
`xid`'s is unchanged. -/
theorem clog_set_get_round_trip (xid xid' s : Nat) (page : List Nat)
    (hs : s < 4) (hlen : BLCKSZ ≤ page.length) (hb : ∀ b ∈ page, b < 256) :
    ∃ page', transaction_id_set_status xid s page = some page' ∧
      transaction_id_get_status xid page' = some s ∧
      (CLOG_byteno xid' ≠ CLOG_byteno xid ∨ CLOG_bshift xid' ≠ CLOG_bshift xid →
        transaction_id_get_status xid' page' = transaction_id_get_status xid' page) := by
  have hB : CLOG_byteno xid < page.length := by
    have h1 : CLOG_byteno xid < 8192 := by
      simp only [CLOG_byteno, CLOG_XACTS_PER_PAGE_val, CLOG_XACTS_PER_BYTE_val]
      omega
    rw [BLCKSZ_val] at hlen
    omega
  obtain ⟨old, hold⟩ : ∃ o, page[CLOG_byteno xid]? = some o :=
    ⟨_, List.getElem?_eq_getElem hB⟩
  have hob : old < 256 := hb _ (List.getElem?_mem hold)
  refine ⟨page.set (CLOG_byteno xid)
    ((old &&& (255 ^^^ (pg_constants.CLOG_XACT_BITMASK <<< CLOG_bshift xid) % 256)) |||
      (s <<< CLOG_bshift xid) % 256), ?_, ?_, ?_⟩
  · rw [transaction_id_set_status, hold]
    rfl
  · rw [transaction_id_get_status, List.getElem?_set_self hB]
    simp only [Option.map_some']
    have hfield := clog_byte_fields old hob s hs (xid % 4) (by omega) (xid % 4) (by omega)
    rw [if_pos rfl] at hfield
    simp only [CLOG_XACT_BITMASK_val, CLOG_bshift, CLOG_XACTS_PER_BYTE_val,
      CLOG_BITS_PER_XACT_val]
    rw [hfield]
  · intro hdiff
    by_cases hbn : CLOG_byteno xid' = CLOG_byteno xid
    case pos =>
      have hsh : CLOG_bshift xid' ≠ CLOG_bshift xid := hdiff.resolve_left (not_not_intro hbn)
      have hj : xid' % 4 ≠ xid % 4 := by
        simp only [CLOG_bshift, CLOG_XACTS_PER_BYTE_val, CLOG_BITS_PER_XACT_val] at hsh
        omega
      rw [transaction_id_get_status, transaction_id_get_status, hbn,
        List.getElem?_set_self hB, hold]
      simp only [Option.map_some']
      have hfield := clog_byte_fields old hob s hs (xid % 4) (by omega) (xid' % 4) (by omega)
      rw [if_neg hj] at hfield
      simp only [CLOG_XACT_BITMASK_val, CLOG_bshift, CLOG_XACTS_PER_BYTE_val,
        CLOG_BITS_PER_XACT_val]
      rw [hfield]
    case neg =>
      have hne : CLOG_byteno xid ≠ CLOG_byteno xid' := fun e => hbn e.symm
      simp only [transaction_id_get_status, List.getElem?_set_ne hne]

/-- Witness for C1 at `xid = 5`, `xid' = 6`, `s = 2` on an all-zero page. -/
theorem clog_set_get_round_trip_witness :
    ∃ page', transaction_id_set_status 5 2 (List.replicate 8192 0) = some page' ∧
      transaction_id_get_status 5 page' = some 2 ∧
      (CLOG_byteno 6 ≠ CLOG_byteno 5 ∨ CLOG_bshift 6 ≠ CLOG_bshift 5 →
        transaction_id_get_status 6 page' = transaction_id_get_status 6 (List.replicate 8192 0)) :=
  clog_set_get_round_trip 5 6 2 (List.replicate 8192 0) (by norm_num)
    (by rw [BLCKSZ_val, List.length_replicate])
    (by intro b hbm; rw [List.eq_of_mem_replicate hbm]; norm_num)

/-- C5: frame property of the CLOG writer.  `transaction_id_set_status`
keeps the page length, changes no byte other than the one at
`CLOG_byteno xid`, and within that byte changes no packed 2-bit field other
than the one at `CLOG_bshift xid`. -/
theorem clog_set_status_frame (xid s : Nat) (page : List Nat)
    (hs : s < 4) (hlen : BLCKSZ ≤ page.length) (hb : ∀ b ∈ page, b < 256) :
    ∃ page', transaction_id_set_status xid s page = some page' ∧
      page'.length = page.length ∧
      (∀ i, i ≠ CLOG_byteno xid → page'.getD i 0 = page.getD i 0) ∧
      (∀ j, j < 4 → j * 2 ≠ CLOG_bshift xid →
        page'.getD (CLOG_byteno xid) 0 >>> (j * 2) &&& 3 =
          page.getD (CLOG_byteno xid) 0 >>> (j * 2) &&& 3) := by
  have hB : CLOG_byteno xid < page.length := by
    have h1 : CLOG_byteno xid < 8192 := by
      simp only [CLOG_byteno, CLOG_XACTS_PER_PAGE_val, CLOG_XACTS_PER_BYTE_val]
      omega
    rw [BLCKSZ_val] at hlen
    omega
  obtain ⟨old, hold⟩ : ∃ o, page[CLOG_byteno xid]? = some o :=
    ⟨_, List.getElem?_eq_getElem hB⟩
  have hob : old < 256 := hb _ (List.getElem?_mem hold)
  refine ⟨page.set (CLOG_byteno xid)
    ((old &&& (255 ^^^ (pg_constants.CLOG_XACT_BITMASK <<< CLOG_bshift xid) % 256)) |||
      (s <<< CLOG_bshift xid) % 256), ?_, ?_, ?_, ?_⟩
  · rw [transaction_id_set_status, hold]
    rfl
  · exact List.length_set page _ _
  · intro i hi
    have hne : CLOG_byteno xid ≠ i := fun e => hi e.symm
    simp only [List.getD_eq_getElem?_getD, List.getElem?_set_ne hne]
  · intro j hj hjsh
    have hjk : j ≠ xid % 4 := by
      simp only [CLOG_bshift, CLOG_XACTS_PER_BYTE_val, CLOG_BITS_PER_XACT_val] at hjsh
      omega
    simp only [List.getD_eq_getElem?_getD, List.getElem?_set_self hB, hold, Option.getD_some]
    have hfield := clog_byte_fields old hob s hs (xid % 4) (by omega) j hj
    rw [if_neg hjk] at hfield
    simp only [CLOG_XACT_BITMASK_val, CLOG_bshift, CLOG_XACTS_PER_BYTE_val,
      CLOG_BITS_PER_XACT_val]
    rw [hfield]

/-- Witness for C5 at `xid = 5`, `s = 1` on an all-zero page. -/
theorem clog_set_status_frame_witness :
    ∃ page', transaction_id_set_status 5 1 (List.replicate 8192 0) = some page' ∧
      page'.length = (List.replicate 8192 (0 : Nat)).length ∧
      (∀ i, i ≠ CLOG_byteno 5 → page'.getD i 0 = (List.replicate 8192 0).getD i 0) ∧
      (∀ j, j < 4 → j * 2 ≠ CLOG_bshift 5 →
        page'.getD (CLOG_byteno 5) 0 >>> (j * 2) &&& 3 =
          (List.replicate 8192 0).getD (CLOG_byteno 5) 0 >>> (j * 2) &&& 3) :=
  clog_set_status_frame 5 1 (List.replicate 8192 0) (by norm_num)
    (by rw [BLCKSZ_val, List.length_replicate])
    (by intro b hbm; rw [List.eq_of_mem_replicate hbm]; norm_num)


/-! ### CSN codec -/

/-- Reading through the chain of eight byte writes performed by
`transaction_id_set_csn`. -/
theorem getElem?_set_eight (l : List Nat) (b v0 v1 v2 v3 v4 v5 v6 v7 j : Nat)
    (hb : b + 8 ≤ l.length) :
    ((((((((l.set b v0).set (b+1) v1).set (b+2) v2).set (b+3) v3).set (b+4) v4).set
        (b+5) v5).set (b+6) v6).set (b+7) v7)[j]? =
      (if b + 7 = j then some v7 else if b + 6 = j then some v6 else
       if b + 5 = j then some v5 else if b + 4 = j then some v4 else
       if b + 3 = j then some v3 else if b + 2 = j then some v2 else
       if b + 1 = j then some v1 else if b = j then some v0 else l[j]?) := by
  simp only [List.getElem?_set, List.length_set]
  split_ifs <;> first | rfl | omega

/-- C4: `transaction_id_set_csn` writes exactly the 8 bytes of `csn` in
little-endian order at byte offset `(xid mod (block_size / 8)) * 8`, leaves
every other byte unchanged, and reading the 8 bytes back little-endian
recovers `csn`. -/
theorem csn_set_round_trip (xid csn : Nat) (page : List Nat)
    (hcsn : csn < 18446744073709551616)
    (hlen : CSN_bytebegin xid + pg_constants.CSN_SIZE ≤ page.length) :
    CSN_bytebegin xid = xid % (BLCKSZ / 8) * 8 ∧
    ∃ page', transaction_id_set_csn xid csn page = some page' ∧
      page'.length = page.length ∧
      (∀ i, i < 8 → page'.getD (CSN_bytebegin xid + i) 0 = csn >>> (8 * i) % 256) ∧
      (∀ j, j < CSN_bytebegin xid ∨ CSN_bytebegin xid + 8 ≤ j →
        page'.getD j 0 = page.getD j 0) ∧
      page'.getD (CSN_bytebegin xid) 0 +
        page'.getD (CSN_bytebegin xid + 1) 0 * 256 +
        page'.getD (CSN_bytebegin xid + 2) 0 * 65536 +
        page'.getD (CSN_bytebegin xid + 3) 0 * 16777216 +
        page'.getD (CSN_bytebegin xid + 4) 0 * 4294967296 +
        page'.getD (CSN_bytebegin xid + 5) 0 * 1099511627776 +
        page'.getD (CSN_bytebegin xid + 6) 0 * 281474976710656 +
        page'.getD (CSN_bytebegin xid + 7) 0 * 72057594037927936 = csn := by
  have hlen8 : CSN_bytebegin xid + 8 ≤ page.length := by
    rw [CSN_SIZE_val] at hlen
    exact hlen
  set p2 := ((((((((page.set
      (CSN_bytebegin xid) (csn % 256)).set
      (CSN_bytebegin xid + 1) (csn >>> 8 % 256)).set
      (CSN_bytebegin xid + 2) (csn >>> 16 % 256)).set
      (CSN_bytebegin xid + 3) (csn >>> 24 % 256)).set
      (CSN_bytebegin xid + 4) (csn >>> 32 % 256)).set
      (CSN_bytebegin xid + 5) (csn >>> 40 % 256)).set
      (CSN_bytebegin xid + 6) (csn >>> 48 % 256)).set
      (CSN_bytebegin xid + 7) (csn >>> 56 % 256)) with hp2
  have hq : ∀ j, p2[j]? =
      (if CSN_bytebegin xid + 7 = j then some (csn >>> 56 % 256) else
       if CSN_bytebegin xid + 6 = j then some (csn >>> 48 % 256) else
       if CSN_bytebegin xid + 5 = j then some (csn >>> 40 % 256) else
       if CSN_bytebegin xid + 4 = j then some (csn >>> 32 % 256) else
       if CSN_bytebegin xid + 3 = j then some (csn >>> 24 % 256) else
       if CSN_bytebegin xid + 2 = j then some (csn >>> 16 % 256) else
       if CSN_bytebegin xid + 1 = j then some (csn >>> 8 % 256) else
       if CSN_bytebegin xid = j then some (csn % 256) else page[j]?) := by
    intro j
    rw [hp2]
    exact getElem?_set_eight page (CSN_bytebegin xid) _ _ _ _ _ _ _ _ j hlen8
  have hbytes : ∀ i, i < 8 → p2.getD (CSN_bytebegin xid + i) 0 = csn >>> (8 * i) % 256 := by
    intro i hi
    rw [List.getD_eq_getElem?_getD, hq]
    interval_cases i <;>
      (split_ifs <;>
        (try simp only [Option.getD_some, Nat.shiftRight_eq_div_pow]) <;>
        omega)
  have hframe : ∀ j, j < CSN_bytebegin xid ∨ CSN_bytebegin xid + 8 ≤ j →
      p2.getD j 0 = page.getD j 0 := by
    intro j hj
    rw [List.getD_eq_getElem?_getD, List.getD_eq_getElem?_getD, hq]
    split_ifs <;> first | rfl | omega
  have hread : p2.getD (CSN_bytebegin xid) 0 +
      p2.getD (CSN_bytebegin xid + 1) 0 * 256 +
      p2.getD (CSN_bytebegin xid + 2) 0 * 65536 +
      p2.getD (CSN_bytebegin xid + 3) 0 * 16777216 +
      p2.getD (CSN_bytebegin xid + 4) 0 * 4294967296 +
      p2.getD (CSN_bytebegin xid + 5) 0 * 1099511627776 +
      p2.getD (CSN_bytebegin xid + 6) 0 * 281474976710656 +
      p2.getD (CSN_bytebegin xid + 7) 0 * 72057594037927936 = csn := by
    have h0 := hbytes 0 (by norm_num)
    have h1 := hbytes 1 (by norm_num)
    have h2 := hbytes 2 (by norm_num)
    have h3 := hbytes 3 (by norm_num)
    have h4 := hbytes 4 (by norm_num)
    have h5 := hbytes 5 (by norm_num)
    have h6 := hbytes 6 (by norm_num)
    have h7 := hbytes 7 (by norm_num)
    rw [Nat.add_zero] at h0
    norm_num at h0 h1 h2 h3 h4 h5 h6 h7
    simp only [List.getD_eq_getElem?_getD]
    rw [h0, h1, h2, h3, h4, h5, h6, h7]
    simp only [Nat.shiftRight_eq_div_pow]
    omega
  have hlength : p2.length = page.length := by
    rw [hp2]
    simp only [List.length_set]
  refine ⟨rfl, p2, ?_, hlength, hbytes, hframe, hread⟩
  simp only [transaction_id_set_csn]
  rw [if_pos hlen, hp2]

/-- Witness for C4 at `xid = 3`, `csn = 18446744073709551615` (the largest
64-bit value) on an all-nine page of 8192 bytes. -/
theorem csn_set_round_trip_witness :
    CSN_bytebegin 3 = 3 % (BLCKSZ / 8) * 8 ∧
    ∃ page', transaction_id_set_csn 3 18446744073709551615 (List.replicate 8192 9) = some page' ∧
      page'.length = (List.replicate 8192 (9 : Nat)).length ∧
      (∀ i, i < 8 → page'.getD (CSN_bytebegin 3 + i) 0 =
        18446744073709551615 >>> (8 * i) % 256) ∧
      (∀ j, j < CSN_bytebegin 3 ∨ CSN_bytebegin 3 + 8 ≤ j →
        page'.getD j 0 = (List.replicate 8192 9).getD j 0) ∧
      page'.getD (CSN_bytebegin 3) 0 +
        page'.getD (CSN_bytebegin 3 + 1) 0 * 256 +
        page'.getD (CSN_bytebegin 3 + 2) 0 * 65536 +
        page'.getD (CSN_bytebegin 3 + 3) 0 * 16777216 +
        page'.getD (CSN_bytebegin 3 + 4) 0 * 4294967296 +
        page'.getD (CSN_bytebegin 3 + 5) 0 * 1099511627776 +
        page'.getD (CSN_bytebegin 3 + 6) 0 * 281474976710656 +
        page'.getD (CSN_bytebegin 3 + 7) 0 * 72057594037927936 = 18446744073709551615 :=
  csn_set_round_trip 3 18446744073709551615 (List.replicate 8192 9) (by norm_num)
    (by rw [List.length_replicate]; decide)

/-! ### MultiXact member addressing -/

/-- C2: on the full u32 domain of `member_id` and for every region index
(one of the `MAX_REGIONS` parallel addressing spaces), the five MultiXact
addressing functions compute exactly the spec formulas of §4.5, and they
reproduce the five literal scenario rows of §8 at region 0. -/
theorem mx_addressing_formulas (xid region : Nat)
    (hx : xid < 4294967296) (hr : region < pg_constants.MAX_REGIONS) :
    mx_offset_to_flags_offset xid =
      xid / pg_constants.MULTIXACT_MEMBERS_PER_MEMBERGROUP %
        pg_constants.MULTIXACT_MEMBERGROUPS_PER_PAGE *
        pg_constants.MULTIXACT_MEMBERGROUP_SIZE ∧
    mx_offset_to_flags_bitshift xid =
      xid % pg_constants.MULTIXACT_MEMBERS_PER_MEMBERGROUP *
        pg_constants.MXACT_MEMBER_BITS_PER_XACT ∧
    mx_offset_to_member_offset xid =
      mx_offset_to_flags_offset xid + (pg_constants.MULTIXACT_FLAGBYTES_PER_GROUP +
        xid % pg_constants.MULTIXACT_MEMBERS_PER_MEMBERGROUP * 4) ∧
    mx_offset_to_member_page xid region =
      xid / pg_constants.MULTIXACT_MEMBERS_PER_PAGE * pg_constants.MAX_REGIONS + region ∧
    mx_offset_to_member_segment xid region =
      ((xid / pg_constants.MULTIXACT_MEMBERS_PER_PAGE * pg_constants.MAX_REGIONS + region) /
        pg_constants.SLRU_PAGES_PER_SEGMENT : Nat) ∧
    mx_offset_to_member_segment 0 0 = 0 ∧
    mx_offset_to_member_page 0 0 = 0 ∧
    mx_offset_to_flags_offset 0 = 0 ∧
    mx_offset_to_flags_bitshift 0 = 0 ∧
    mx_offset_to_member_offset 0 = 4 ∧
    mx_offset_to_member_segment 1 0 = 0 ∧
    mx_offset_to_member_page 1 0 = 0 ∧
    mx_offset_to_flags_offset 1 = 0 ∧
    mx_offset_to_flags_bitshift 1 = 8 ∧
    mx_offset_to_member_offset 1 = 8 ∧
    mx_offset_to_member_segment 123456789 0 = 150924 ∧
    mx_offset_to_member_page 123456789 0 = 4829568 ∧
    mx_offset_to_flags_offset 123456789 = 4780 ∧
    mx_offset_to_flags_bitshift 123456789 = 8 ∧
    mx_offset_to_member_offset 123456789 = 4788 ∧
    mx_offset_to_member_segment 4294967294 0 = 5250570 ∧
    mx_offset_to_member_page 4294967294 0 = 168018240 ∧
    mx_offset_to_flags_offset 4294967294 = 5160 ∧
    mx_offset_to_flags_bitshift 4294967294 = 16 ∧
    mx_offset_to_member_offset 4294967294 = 5172 ∧
    mx_offset_to_member_segment 4294967295 0 = 5250570 ∧
    mx_offset_to_member_page 4294967295 0 = 168018240 ∧
    mx_offset_to_flags_offset 4294967295 = 5160 ∧
    mx_offset_to_flags_bitshift 4294967295 = 24 ∧
    mx_offset_to_member_offset 4294967295 = 5176 := by
  rw [MAX_REGIONS_val] at hr
  have hpage : mx_offset_to_member_page xid region =
      xid / pg_constants.MULTIXACT_MEMBERS_PER_PAGE * pg_constants.MAX_REGIONS + region := by
    simp only [mx_offset_to_member_page, MULTIXACT_MEMBERS_PER_PAGE_val, MAX_REGIONS_val]
    omega
  refine ⟨?_, ?_, ?_, hpage, ?_, ?_⟩
  · rfl
  · simp only [mx_offset_to_flags_bitshift, MULTIXACT_MEMBERS_PER_MEMBERGROUP_val,
      MXACT_MEMBER_BITS_PER_XACT_val]
    omega
  · simp only [mx_offset_to_member_offset, mx_offset_to_flags_offset,
      MULTIXACT_MEMBERS_PER_MEMBERGROUP_val, MULTIXACT_MEMBERGROUPS_PER_PAGE_val,
      MULTIXACT_MEMBERGROUP_SIZE_val, MULTIXACT_FLAGBYTES_PER_GROUP_val]
    omega
  · rw [mx_offset_to_member_segment, hpage, i32_of_u32]
    rw [if_pos]
    simp only [MULTIXACT_MEMBERS_PER_PAGE_val, MAX_REGIONS_val, SLRU_PAGES_PER_SEGMENT_val]
    · omega
  · decide

/-- Witness for C2 at `member_id = 123456789`, `region = 0`: the
member-page formula instance. -/
theorem mx_addressing_formulas_witness :
    mx_offset_to_member_page 123456789 0 =
      123456789 / pg_constants.MULTIXACT_MEMBERS_PER_PAGE * pg_constants.MAX_REGIONS + 0 :=
  (mx_addressing_formulas 123456789 0 (by norm_num) (by decide)).2.2.2.1

/-- C9: totality and absence of overflow for the five MultiXact addressing
functions over the whole u32 domain of `member_id` (region 0): every
intermediate and result stays within its machine-integer width — in
particular the wrapped u32 page computation agrees with the pure formula
and the u32-to-i32 segment cast is value-preserving. -/
theorem mx_addressing_total_no_overflow (xid : Nat) (hx : xid < 4294967296) :
    mx_offset_to_flags_offset xid ≤ 8160 ∧
    mx_offset_to_flags_bitshift xid ≤ 24 ∧
    mx_offset_to_member_offset xid ≤ 8176 ∧
    mx_offset_to_member_page xid 0 =
      xid / pg_constants.MULTIXACT_MEMBERS_PER_PAGE * pg_constants.MAX_REGIONS ∧
    mx_offset_to_member_page xid 0 < 4294967296 ∧
    mx_offset_to_member_page xid 0 / pg_constants.SLRU_PAGES_PER_SEGMENT < 2147483648 ∧
    mx_offset_to_member_segment xid 0 =
      ((mx_offset_to_member_page xid 0 / pg_constants.SLRU_PAGES_PER_SEGMENT : Nat) : Int) := by
  have hpage : mx_offset_to_member_page xid 0 =
      xid / pg_constants.MULTIXACT_MEMBERS_PER_PAGE * pg_constants.MAX_REGIONS := by
    simp only [mx_offset_to_member_page, MULTIXACT_MEMBERS_PER_PAGE_val, MAX_REGIONS_val]
    omega
  have hbound : mx_offset_to_member_page xid 0 / pg_constants.SLRU_PAGES_PER_SEGMENT <
      2147483648 := by
    rw [hpage]
    simp only [MULTIXACT_MEMBERS_PER_PAGE_val, MAX_REGIONS_val, SLRU_PAGES_PER_SEGMENT_val]
    omega
  refine ⟨?_, ?_, ?_, hpage, ?_, hbound, ?_⟩
  · simp only [mx_offset_to_flags_offset, MULTIXACT_MEMBERS_PER_MEMBERGROUP_val,
      MULTIXACT_MEMBERGROUPS_PER_PAGE_val, MULTIXACT_MEMBERGROUP_SIZE_val]
    omega
  · simp only [mx_offset_to_flags_bitshift, MULTIXACT_MEMBERS_PER_MEMBERGROUP_val,
      MXACT_MEMBER_BITS_PER_XACT_val]
    omega
  · simp only [mx_offset_to_member_offset, mx_offset_to_flags_offset,
      MULTIXACT_MEMBERS_PER_MEMBERGROUP_val, MULTIXACT_MEMBERGROUPS_PER_PAGE_val,
      MULTIXACT_MEMBERGROUP_SIZE_val, MULTIXACT_FLAGBYTES_PER_GROUP_val]
    omega
  · rw [hpage]
    simp only [MULTIXACT_MEMBERS_PER_PAGE_val, MAX_REGIONS_val]
    omega
  · rw [mx_offset_to_member_segment, i32_of_u32, if_pos hbound]

/-- Witness for C9 at `member_id = u32::MAX`: the wrapped page computation
agrees with the pure formula. -/
theorem mx_addressing_total_no_overflow_witness :
    mx_offset_to_member_page 4294967295 0 =
      4294967295 / pg_constants.MULTIXACT_MEMBERS_PER_PAGE * pg_constants.MAX_REGIONS :=
  (mx_addressing_total_no_overflow 4294967295 (by norm_num)).2.2.2.1

/-! ### Segment retention policy -/

/-- The source's `clogpage_precedes` (with u32 wrapping) coincides with the
spec's unwrapped `page_precedes` formula on all inputs, because the
ordering relation only depends on identifiers mod `2^32`. -/
theorem clogpage_precedes_eq_spec (p1 p2 : Nat) :
    clogpage_precedes p1 p2 = spec_page_precedes p1 p2 := by
  have e1 : ∀ a b : Nat, transaction_id_precedes (a % 4294967296) (b % 4294967296) =
      transaction_id_precedes a b := fun a b => by
    rw [transaction_id_precedes_mod_left, transaction_id_precedes_mod_right]
  have e2 : ∀ a b : Nat, transaction_id_precedes (a % 4294967296)
      ((b % 4294967296 + 32768 - 1) % 4294967296) =
      transaction_id_precedes a (b + 32768 - 1) := fun a b => by
    simp only [transaction_id_precedes]
    rw [decide_eq_decide]
    omega
  simp only [clogpage_precedes, spec_page_precedes, CLOG_XACTS_PER_PAGE_val,
    FIRST_NORMAL_TRANSACTION_ID_val]
  rw [e2, e1]

/-- C3: for a segment-aligned start page, `slru_may_delete_segment` returns
`true` exactly when both the segment's first page and its last page
(`segpage + pages_per_segment - 1`) pass the spec's `page_precedes` check
against the cutoff. -/
theorem slru_may_delete_segment_iff (segpage cutoff : Nat)
    (hseg : segpage < 4294967296)
    (halign : segpage % pg_constants.SLRU_PAGES_PER_SEGMENT = 0) :
    slru_may_delete_segment segpage cutoff = some true ↔
      (spec_page_precedes segpage cutoff = true ∧
        spec_page_precedes (segpage + pg_constants.SLRU_PAGES_PER_SEGMENT - 1) cutoff =
          true) := by
  have hlast : (segpage + pg_constants.SLRU_PAGES_PER_SEGMENT - 1) % 4294967296 =
      segpage + pg_constants.SLRU_PAGES_PER_SEGMENT - 1 := by
    rw [SLRU_PAGES_PER_SEGMENT_val] at halign ⊢
    omega
  simp only [slru_may_delete_segment]
  rw [if_pos halign, hlast, clogpage_precedes_eq_spec, clogpage_precedes_eq_spec]
  simp [Bool.and_eq_true]

/-- Witness for C3 at `segpage = 0`, `cutoff = 32`. -/
theorem slru_may_delete_segment_iff_witness :
    spec_page_precedes 0 32 = true ∧
      spec_page_precedes (0 + pg_constants.SLRU_PAGES_PER_SEGMENT - 1) 32 = true :=
  (slru_may_delete_segment_iff 0 32 (by norm_num) (by decide)).mp (by decide)

/-- C6: the retention predicate panics (`none`) on every non-segment-aligned
start page, for every cutoff, and returns a boolean (`some`) on every
aligned one. -/
theorem slru_alignment_enforcement (segpage cutoff : Nat) :
    (segpage % pg_constants.SLRU_PAGES_PER_SEGMENT ≠ 0 →
      slru_may_delete_segment segpage cutoff = none) ∧
    (segpage % pg_constants.SLRU_PAGES_PER_SEGMENT = 0 →
      (slru_may_delete_segment segpage cutoff).isSome = true) := by
  constructor
  · intro h
    simp only [slru_may_delete_segment]
    rw [if_neg h]
  · intro h
    simp only [slru_may_delete_segment]
    rw [if_pos h]
    rfl

/-- Witness for C6 at `segpage = 1` (misaligned), `cutoff = 0`. -/
theorem slru_alignment_enforcement_witness :
    slru_may_delete_segment 1 0 = none :=
  (slru_alignment_enforcement 1 0).1 (by decide)

/-- C8 fails on the code: with segment 0, cutoff page 65535 and cutoff page
131070, the segment may be deleted at the first cutoff, the first cutoff
precedes the second (both as raw page numbers and page-wise), yet the
segment may not be deleted at the second cutoff — wraparound ordering is
not transitive over the full domain. -/
theorem slru_retention_monotonicity_counterexample :
    slru_may_delete_segment 0 65535 = some true ∧
      transaction_id_precedes 65535 131070 = true ∧
      clogpage_precedes 65535 131070 = true ∧
      slru_may_delete_segment 0 131070 = some false := by decide

/-- C8 (amended): retention monotonicity within the wraparound comparison
horizon: if the segment may be deleted at `c`, page `c` precedes page `c'`
(page-wise), and the wrapped identifier distance from the segment's first
entry to `c'`'s first entry is at most `2^31 - entries_per_page`, then the
segment may be deleted at `c'`. -/
theorem slru_retention_monotonicity_within_horizon (seg c c' : Nat)
    (h1 : slru_may_delete_segment seg c = some true)
    (h2 : clogpage_precedes c c' = true)
    (h3 : ((c' * pg_constants.CLOG_XACTS_PER_PAGE +
        pg_constants.FIRST_NORMAL_TRANSACTION_ID + 1) % 4294967296 + 4294967296 -
        (seg * pg_constants.CLOG_XACTS_PER_PAGE +
          pg_constants.FIRST_NORMAL_TRANSACTION_ID + 1) % 4294967296) % 4294967296 ≤
        2147483648 - pg_constants.CLOG_XACTS_PER_PAGE) :
    slru_may_delete_segment seg c' = some true := by
  by_cases halign : seg % pg_constants.SLRU_PAGES_PER_SEGMENT = 0
  case neg =>
    simp only [slru_may_delete_segment] at h1
    rw [if_neg halign] at h1
    exact absurd h1 (by simp)
  case pos =>
    simp only [slru_may_delete_segment] at h1 ⊢
    rw [if_pos halign] at h1 ⊢
    simp only [Option.some_inj, Bool.and_eq_true] at h1 ⊢
    obtain ⟨h1a, h1b⟩ := h1
    simp only [clogpage_precedes, transaction_id_precedes, decide_eq_true_eq,
      Bool.and_eq_true, CLOG_XACTS_PER_PAGE_val, FIRST_NORMAL_TRANSACTION_ID_val,
      SLRU_PAGES_PER_SEGMENT_val] at h1a h1b h2 h3 ⊢
    rw [SLRU_PAGES_PER_SEGMENT_val] at halign
    obtain ⟨h2a, h2b⟩ := h2
    obtain ⟨h1a1, h1a2⟩ := h1a
    obtain ⟨h1b1, h1b2⟩ := h1b
    constructor
    · constructor <;> omega
    · constructor <;> omega

/-- Witness for the amended C8 at `seg = 0`, `c = 32`, `c' = 33`. -/
theorem slru_retention_monotonicity_within_horizon_witness :
    slru_may_delete_segment 0 33 = some true :=
  slru_retention_monotonicity_within_horizon 0 32 33 (by decide) (by decide) (by decide)

/-! ### CSN log page ordering -/

/-- C10: `csnlogpage_precedes` returns `false` for pages of different
regions, and for same-region pages reduces to a single one-directional
`precedes` check on the region-adjusted first identifiers. -/
theorem csnlogpage_precedes_characterization (p1 p2 : Nat) :
    (p1 % pg_constants.MAX_REGIONS ≠ p2 % pg_constants.MAX_REGIONS →
      csnlogpage_precedes p1 p2 = false) ∧
    (p1 % pg_constants.MAX_REGIONS = p2 % pg_constants.MAX_REGIONS →
      csnlogpage_precedes p1 p2 =
        transaction_id_precedes
          (p1 / pg_constants.MAX_REGIONS * pg_constants.CSN_LOG_XACTS_PER_PAGE +
            pg_constants.FIRST_NORMAL_TRANSACTION_ID + 1)
          (p2 / pg_constants.MAX_REGIONS * pg_constants.CSN_LOG_XACTS_PER_PAGE +
            pg_constants.FIRST_NORMAL_TRANSACTION_ID + 1)) := by
  constructor
  · intro h
    simp only [csnlogpage_precedes]
    rw [if_pos h]
  · intro h
    simp only [csnlogpage_precedes]
    rw [if_neg (not_not_intro h), transaction_id_precedes_mod_left,
      transaction_id_precedes_mod_right]

/-- Witness for C10 at `p1 = 1`, `p2 = 2` (different regions). -/
theorem csnlogpage_precedes_characterization_witness :
    csnlogpage_precedes 1 2 = false :=
  (csnlogpage_precedes_characterization 1 2).1 (by decide)
